import Mathlib

/-!
Shallow embedding of the cp-hackathon-backend request handlers
(src/functions/music, src/functions/history, src/functions/user/settings,
src/functions/user/image, each a lambda_handler.py) and proofs about them.

Modelling conventions:
* Machine-level collaborators (DynamoDB tables, S3 buckets) are explicit
  association lists inside a `Store` value; every operation the handlers
  consume (get_item, put_item, update_item, delete_item, put_object,
  delete_object, head_object, list_objects) is state passing over it.
  Collaborator calls themselves are assumed to succeed; a call that the
  Python runtime would reject outright (a `None` DynamoDB key, attribute
  access on `None`) is modelled as `none` (an unhandled exception).
* A handler that raises an uncaught Python exception is modelled as
  returning `none`; a returned HTTP response is `some`.
* The inbound event's "body" field is carried together with its JSON parse
  outcome (`RawBody`), since `json.loads` is the standard library:
  `noBody` is an absent/empty/falsy body, `malformed` a truthy body on
  which `json.loads` raises, `parsed d` a body that parses to the object
  `d`.  Body and query-parameter objects are string-to-string maps, the
  shape every handler reads.
* `base64.b64decode` (validate=False) is modelled by `b64decode`:
  characters outside the base64 alphabet are discarded, then the input
  must consist of 4-character groups (with `=` padding only at the end);
  otherwise the call raises (`none`).
* Presigned URLs are opaque capability values produced by the storage
  collaborator from a (bucket, key) pair; the handlers only choose the
  pair, so `PresignedUrl` records exactly that pair.
* `S3Object.lastModified` carries the collaborator's timestamp already
  formatted (the `strftime` call is at the collaborator boundary).
-/

/-- JSON values, used for the opaque per-item results payloads read by the
history handler. -/
inductive Json where
  | null
  | bool (b : Bool)
  | num (n : Int)
  | str (s : String)
  | arr (xs : List Json)
  | obj (fields : List (String × Json))

/-- Identity claims attached by the upstream authorizer
(`requestContext.authorizer.claims`).  Each field may be absent from the
claims mapping. -/
structure Claims where
  sub : Option String
  cognitoUsername : Option String
  email : Option String
  deriving DecidableEq

/-- The event's "body" field together with its JSON parse outcome. -/
inductive RawBody where
  | noBody
  | malformed
  | parsed (d : List (String × String))
  deriving DecidableEq

/-- Translation of `json.loads(event.get("body", "{}")) if event.get("body")
else {}`: a falsy body yields the empty object, a malformed body raises. -/
def parseBody : RawBody → Option (List (String × String))
  | RawBody.noBody => some []
  | RawBody.malformed => none
  | RawBody.parsed d => some d

/-- The event's "queryStringParameters" field: absent, JSON null, or an
object. -/
inductive QueryParams where
  | absent
  | null
  | dict (d : List (String × String))
  deriving DecidableEq

/-- Inbound request descriptor, the fields the handlers read from the
lambda event. `claims = none` covers an absent as well as a falsy (empty)
claims mapping, which `if claims:` treats alike. -/
structure Event where
  path : Option String
  httpMethod : Option String
  body : RawBody
  queryStringParameters : QueryParams
  claims : Option Claims
  deriving DecidableEq

/-- Python dictionary lookup `d.get(k)` on a string-valued object. -/
def dictGet (d : List (String × String)) (k : String) : Option String :=
  (d.find? (fun e => e.1 == k)).map (fun e => e.2)

/-- Python containment test `k in d`. -/
def dictContains (d : List (String × String)) (k : String) : Bool :=
  (dictGet d k).isSome

/-- Python truthiness of an optional string (`if not x`): `None` and the
empty string are falsy. -/
def pyTruthy : Option String → Bool
  | none => false
  | some s => s != ""

/-- Python str() / f-string rendering of an optional string: `None` prints
as "None". -/
def pyStr : Option String → String
  | none => "None"
  | some s => s

/-- DynamoDB `get_item` / S3 object lookup over an association list. -/
def getItem {α : Type} (tbl : List (String × α)) (k : String) : Option α :=
  (tbl.find? (fun e => e.1 == k)).map (fun e => e.2)

/-- DynamoDB `put_item` / `update_item` (full overwrite of the modelled
attributes) and S3 `put_object`: replace the entry at the key. -/
def putItem {α : Type} (tbl : List (String × α)) (k : String) (v : α) :
    List (String × α) :=
  (k, v) :: tbl.filter (fun e => e.1 != k)

/-- DynamoDB `delete_item` / S3 `delete_object`: remove the entry at the
key; succeeds also when the key is absent. -/
def deleteItem {α : Type} (tbl : List (String × α)) (k : String) :
    List (String × α) :=
  tbl.filter (fun e => e.1 != k)

/-- Value of one base64 alphabet character. -/
def b64Val (c : Char) : Option Nat :=
  if 'A' ≤ c ∧ c ≤ 'Z' then some (c.toNat - 65)
  else if 'a' ≤ c ∧ c ≤ 'z' then some (c.toNat - 97 + 26)
  else if '0' ≤ c ∧ c ≤ '9' then some (c.toNat - 48 + 52)
  else if c = '+' then some 62
  else if c = '/' then some 63
  else none

/-- Decode base64 data 4 characters at a time; `=` padding may appear only
in the final group.  `none` models the `binascii.Error` raised by
`base64.b64decode` on bad padding. -/
def b64Groups : List Char → Option (List Nat)
  | [] => some []
  | c1 :: c2 :: c3 :: c4 :: rest =>
    match b64Val c1, b64Val c2 with
    | some v1, some v2 =>
      match b64Val c3, b64Val c4 with
      | some v3, some v4 =>
        match b64Groups rest with
        | some bs =>
          some ((v1 * 4 + v2 / 16) :: ((v2 % 16) * 16 + v3 / 4) ::
            ((v3 % 4) * 64 + v4) :: bs)
        | none => none
      | some v3, none =>
        if c4 = '=' ∧ rest = [] then
          some [v1 * 4 + v2 / 16, (v2 % 16) * 16 + v3 / 4]
        else none
      | none, _ =>
        if c3 = '=' ∧ c4 = '=' ∧ rest = [] then
          some [v1 * 4 + v2 / 16]
        else none
    | _, _ => none
  | _ => none

/-- Model of `base64.b64decode` with validate=False: characters outside
the alphabet are discarded before decoding. -/
def b64decode (s : String) : Option (List Nat) :=
  b64Groups (s.data.filter (fun c => (b64Val c).isSome || c = '='))

/-- Index of the last occurrence of a character in a character list. -/
def lastIndexOf (cs : List Char) (c : Char) : Option Nat :=
  match cs.reverse.findIdx? (fun x => x == c) with
  | none => none
  | some i => some (cs.length - 1 - i)

/-- Model of `os.path.splitext(p)[0]` (posix): drop the extension starting
at the last dot of the final path component, unless every character of the
component before that dot is itself a dot. -/
def splitextRoot (p : String) : String :=
  let cs := p.data
  match lastIndexOf cs '.' with
  | none => p
  | some di =>
    let fi := match lastIndexOf cs '/' with
      | none => 0
      | some si => si + 1
    if fi ≤ di ∧ ((cs.drop fi).take (di - fi)).any (fun c => c != '.') then
      String.mk (cs.take di)
    else p

/-- Music metadata record as stored in the musics DynamoDB table (shape
written by `upload_music`). -/
structure MusicItem where
  music_id : String
  title : String
  s3_key : String
  user_id : String
  created_at : String
  deriving DecidableEq

/-- Opaque signed download link: the (bucket, key) pair the handler passes
to `generate_presigned_url`. -/
structure PresignedUrl where
  bucket : String
  key : String
  deriving DecidableEq

/-- Music record as returned by `get_music_by_id` / `get_music_list`. -/
structure MusicView where
  music_id : String
  title : String
  s3_key : String
  user_id : String
  presigned_url : Option PresignedUrl
  deriving DecidableEq

/-- User settings record stored in a user-settings DynamoDB table. -/
structure SettingsItem where
  username : String
  email : String
  music_id : String
  deriving DecidableEq

/-- Settings payload returned by the user-settings handler. -/
structure SettingsOut where
  user_id : String
  username : String
  email : String
  music_id : String
  deriving DecidableEq

/-- One object from the S3 `list_objects` response consumed by the history
handler. -/
structure S3Object where
  key : String
  lastModified : String
  deriving DecidableEq

/-- Intermediate history item before the presigned URL is attached. -/
structure DecodedStub where
  s3_key : String
  last_modified : String
  deriving DecidableEq

/-- History item with its presigned URL attached. -/
structure DecodedEntry where
  s3_key : String
  last_modified : String
  presigned_url : Option PresignedUrl
  deriving DecidableEq

/-- One entry of the history list response: the decoded item joined with
its results payload. -/
structure HistoryEntry where
  decoded : DecodedEntry
  results : Json

/-- Typed success payloads (the "data" object of the success envelope);
constructors record the wrapper key used by the source where there is
one. -/
inductive Data where
  | emptyObj
  | musicItem (m : MusicItem)
  | musicView (m : MusicView)
  | musicListObj (l : List MusicView)
  | settings (s : SettingsOut)
  | imageUrlObj (u : PresignedUrl)
  | historyListObj (l : List HistoryEntry)

/-- Response body: `json.dumps` of either the failure dictionary literal
`d0` with keys event, error or the success dictionary literal with keys
event, message, data. -/
inductive RespBody where
  | failure (event : Event) (error : String)
  | success (event : Event) (message : String) (data : Data)

/-- Top-level keys of the JSON object the body serializes, read off the
dictionary literals in `get_400_response` / `get_200_response`. -/
def RespBody.topKeys : RespBody → List String
  | RespBody.failure _ _ => ["event", "error"]
  | RespBody.success _ _ _ => ["event", "message", "data"]

/-- Outbound response descriptor. -/
structure Response where
  statusCode : Nat
  headers : List (String × String)
  body : RespBody

/-- The backend's world state: the DynamoDB tables and S3 buckets touched
by the music, user-settings and user-image handlers.  The music and image
handlers address `cp-hackathon-backend-user-settings-db-table`
(`userSettingsDbTable`), while the settings handler addresses the
account-scoped `cp-hackathon-ACCOUNT-backend-user-settings-db-table`
(`acctUserSettingsDbTable`); these are distinct tables. -/
structure Store where
  musicsDbTable : List (String × MusicItem)
  userSettingsDbTable : List (String × SettingsItem)
  acctUserSettingsDbTable : List (String × SettingsItem)
  musicsBucket : List (String × List Nat)
  imageBucket : List (String × List Nat)
  deriving DecidableEq

/-- Resolved identity: `claims.get("sub")` when a truthy claims mapping is
present. -/
def resolveUserId (claims : Option Claims) : Option String :=
  claims.bind (fun c => c.sub)

/-- Shape of every well-formed envelope the handlers emit: status 200 with
a success body or status 400 with a failure body, top-level body keys as
serialized by the response builders. -/
def EnvelopeOk (r : Response) : Prop :=
  (r.statusCode = 200 ∧ ∃ e m d, r.body = RespBody.success e m d ∧
    r.body.topKeys = ["event", "message", "data"]) ∨
  (r.statusCode = 400 ∧ ∃ e m, r.body = RespBody.failure e m ∧
    r.body.topKeys = ["event", "error"])

namespace MusicHandler

def musics_storage_bucket_name : String := "cp-hackathon-backend-musics-bucket"

def headers : List (String × String) :=
  [("Access-Control-Allow-Headers",
    "Content-Type,X-Amz-Date,Authorization,X-Api-Key,X-Amz-Security-Token"),
   ("Access-Control-Allow-Origin", "*"),
   ("Access-Control-Allow-Methods", "OPTIONS,GET,POST")]

def get_400_response (ev : Event) (message : String) : Response :=
  { statusCode := 400, headers := [], body := RespBody.failure ev message }

def get_200_response (ev : Event) (message : String) (data : Data) : Response :=
  { statusCode := 200, headers := [], body := RespBody.success ev message data }

/-- Reads `cp-hackathon-backend-user-settings-db-table`; keeps the
claim-supplied username/email when the record is absent. -/
def get_user_settings (st : Store) (user_id : String)
    (username0 email0 : Option String) : Option String × Option String :=
  match getItem st.userSettingsDbTable user_id with
  | some item => (some item.username, some item.email)
  | none => (username0, email0)

def generate_presigned_url (s3_key : String) : Option PresignedUrl :=
  if s3_key == "" then none
  else some { bucket := musics_storage_bucket_name, key := s3_key }

def get_music_list (st : Store) : List MusicView :=
  (st.musicsDbTable.map (fun e => e.2)).map (fun item =>
    { music_id := item.music_id, title := item.title, s3_key := item.s3_key,
      user_id := item.user_id,
      presigned_url := generate_presigned_url item.s3_key })

def get_music_by_id (st : Store) (music_id : String) : Option MusicView :=
  match getItem st.musicsDbTable music_id with
  | none => none
  | some item =>
    some
      { music_id := item.music_id, title := item.title,
        s3_key := item.s3_key, user_id := item.user_id,
        presigned_url := generate_presigned_url item.s3_key }

/-- Upload the bytes to S3 under a freshly generated key, then store the
metadata record; `freshId` is the generated `uuid.uuid4()` string and
`now` the `datetime.now().isoformat()` timestamp. -/
def upload_music (st : Store) (user_id : String) (music_data : List Nat)
    (title extension freshId now : String) : MusicItem × Store :=
  let music_id := freshId
  let s3_key := "musics/" ++ title ++ "_" ++ music_id ++ "." ++ extension
  let st1 := { st with musicsBucket := putItem st.musicsBucket s3_key music_data }
  let music : MusicItem :=
    { music_id := music_id, title := title, s3_key := s3_key,
      user_id := user_id, created_at := now }
  let st2 := { st1 with musicsDbTable := putItem st1.musicsDbTable music_id music }
  (music, st2)

/-- Returns the store unchanged when the id has no record (the Python
function returns `None` before any collaborator mutation). -/
def delete_music (st : Store) (music_id : String) : Store :=
  match get_music_by_id st music_id with
  | none => st
  | some music =>
    let st1 := { st with musicsBucket := deleteItem st.musicsBucket music.s3_key }
    { st1 with musicsDbTable := deleteItem st1.musicsDbTable music_id }

def handle_get_music_list (st : Store) (ev : Event) : Response :=
  get_200_response ev "Music list retrieved successfully"
    (Data.musicListObj (get_music_list st))

/-- Translation of `event.get("queryStringParameters", {})` followed by a
`.get` on the result: a JSON-null value makes the `.get` raise. -/
def getQueryParams (ev : Event) : Option (List (String × String)) :=
  match ev.queryStringParameters with
  | QueryParams.absent => some []
  | QueryParams.null => none
  | QueryParams.dict d => some d

def handle_get_music_by_id (st : Store) (ev : Event) : Option Response :=
  match getQueryParams ev with
  | none => none
  | some query_params =>
    let music_id := dictGet query_params "music_id"
    if pyTruthy music_id = false then
      some (get_400_response ev "Music ID is required")
    else
      match get_music_by_id st (music_id.getD "") with
      | none => some (get_400_response ev "Music not found")
      | some music =>
        some (get_200_response ev "Music retrieved successfully"
          (Data.musicView music))

/-- The base64 decode sits before the try/except, so an undecodable
"music" field raises out of the handler (`none`); the try/except around
`upload_music` only guards collaborator calls, which the model assumes
succeed. -/
def handle_upload_music (st : Store) (ev : Event) (user_id : Option String)
    (body : List (String × String)) (freshId now : String) :
    Option (Response × Store) :=
  match user_id with
  | none =>
    some (get_400_response ev "Unauthorized: No user ID found in claims", st)
  | some uid =>
    if dictContains body "music" = false then
      some (get_400_response ev "Music data is required", st)
    else if dictContains body "title" = false then
      some (get_400_response ev "Title is required", st)
    else if dictContains body "extension" = false then
      some (get_400_response ev "Extension is required", st)
    else
      match b64decode ((dictGet body "music").getD "") with
      | none => none
      | some music_data =>
        let title := (dictGet body "title").getD ""
        let extension := (dictGet body "extension").getD ""
        let ms := upload_music st uid music_data title extension freshId now
        some (get_200_response ev "Music uploaded successfully"
          (Data.musicItem ms.1), ms.2)

/-- The result of `delete_music` is ignored: deletion of an absent id
still answers with the success envelope. -/
def handle_delete_music (st : Store) (ev : Event) (user_id : Option String) :
    Option (Response × Store) :=
  match user_id with
  | none =>
    some (get_400_response ev "Unauthorized: No user ID found in claims", st)
  | some _ =>
    match getQueryParams ev with
    | none => none
    | some query_params =>
      let music_id := dictGet query_params "music_id"
      if pyTruthy music_id = false then
        some (get_400_response ev "Music ID is required", st)
      else
        let st2 := delete_music st (music_id.getD "")
        some (get_200_response ev "Music deleted successfully" Data.emptyObj, st2)

/-- Routing block of `MusicHandler.handle`.  There is no branch for an
unrecognized path: the Python code then reaches
`response["headers"] = self.headers` with `response` unassigned and raises
UnboundLocalError, modelled as `none`. -/
def dispatch (st : Store) (ev : Event) (user_id : Option String)
    (body : List (String × String)) (freshId now : String) :
    Option (Response × Store) :=
  if ev.path = some "/music" then
    if ev.httpMethod = some "GET" then
      (handle_get_music_by_id st ev).map (fun r => (r, st))
    else if ev.httpMethod = some "POST" then
      handle_upload_music st ev user_id body freshId now
    else if ev.httpMethod = some "DELETE" then
      handle_delete_music st ev user_id
    else
      some (get_400_response ev "Unsupported HTTP method", st)
  else if ev.path = some "/music/list" then
    if ev.httpMethod = some "GET" then
      some (handle_get_music_list st ev, st)
    else
      some (get_400_response ev "Unsupported HTTP method", st)
  else
    none

/-- Entry point.  A truthy claims mapping without a "sub" leaves `user_id`
as `None`, and the unconditional `get_user_settings()` call then hands a
`None` key to the store collaborator, which rejects it (modelled as
`none`). -/
def handle (st : Store) (freshId now : String) (ev : Event) :
    Option (Response × Store) :=
  match parseBody ev.body with
  | none => none
  | some body =>
    match ev.claims with
    | none =>
      (dispatch st ev none body freshId now).map
        (fun p => ({ p.1 with headers := headers }, p.2))
    | some c =>
      match c.sub with
      | none => none
      | some uid =>
        let _settings := get_user_settings st uid c.cognitoUsername c.email
        (dispatch st ev (some uid) body freshId now).map
          (fun p => ({ p.1 with headers := headers }, p.2))

end MusicHandler

namespace UserSettingsHandler

def headers : List (String × String) :=
  [("Access-Control-Allow-Headers",
    "Content-Type,X-Amz-Date,Authorization,X-Api-Key,X-Amz-Security-Token"),
   ("Access-Control-Allow-Origin", "*"),
   ("Access-Control-Allow-Methods", "OPTIONS,PUT,GET")]

def get_400_response (ev : Event) (message : String) : Response :=
  { statusCode := 400, headers := headers, body := RespBody.failure ev message }

def get_200_response (ev : Event) (message : String) (data : Data) : Response :=
  { statusCode := 200, headers := headers, body := RespBody.success ev message data }

/-- Reads the account-scoped user-settings table; an absent record yields
empty-string fields, not a failure. -/
def get_user_settings (st : Store) (user_id : String) : SettingsOut :=
  match getItem st.acctUserSettingsDbTable user_id with
  | some item =>
    { user_id := user_id, username := item.username, email := item.email,
      music_id := item.music_id }
  | none =>
    { user_id := user_id, username := "", email := "", music_id := "" }

/-- Raises `ValueError` (modelled as `Except.error`) when any of the three
required fields is absent; otherwise overwrites all three fields of the
record via `update_item` (which creates the record when absent). -/
def update_user_settings (st : Store) (user_id : String)
    (body : List (String × String)) : Except String (SettingsOut × Store) :=
  if dictContains body "username" = false then
    Except.error "Missing required field: username"
  else if dictContains body "email" = false then
    Except.error "Missing required field: email"
  else if dictContains body "music_id" = false then
    Except.error "Missing required field: music_id"
  else
    let username := (dictGet body "username").getD ""
    let email := (dictGet body "email").getD ""
    let music_id := (dictGet body "music_id").getD ""
    let newItem : SettingsItem :=
      { username := username, email := email, music_id := music_id }
    let st2 :=
      { st with acctUserSettingsDbTable :=
          putItem st.acctUserSettingsDbTable user_id newItem }
    Except.ok
      ({ user_id := user_id, username := username, email := email,
         music_id := music_id }, st2)

/-- No identity check: the user_id comes from the query string alone. -/
def handle_get_user_settings (st : Store) (ev : Event) : Response :=
  let query_params := match ev.queryStringParameters with
    | QueryParams.dict d => d
    | _ => []
  if dictContains query_params "user_id" = false then
    get_400_response ev "user_id is required in query parameters"
  else
    let user_id := (dictGet query_params "user_id").getD ""
    get_200_response ev "Settings retrieved"
      (Data.settings (get_user_settings st user_id))

def handle_update_user_settings (st : Store) (ev : Event)
    (user_id : Option String) (body : List (String × String)) :
    Response × Store :=
  match user_id with
  | none =>
    (get_400_response ev "Unauthorized: No user ID found in claims", st)
  | some uid =>
    match update_user_settings st uid body with
    | Except.error e => (get_400_response ev e, st)
    | Except.ok p =>
      (get_200_response ev "Settings updated" (Data.settings p.1), p.2)

/-- Entry point: dispatches on the HTTP method only (the path is never
inspected). -/
def handle (st : Store) (ev : Event) : Option (Response × Store) :=
  match parseBody ev.body with
  | none => none
  | some body =>
    let user_id := resolveUserId ev.claims
    let p : Response × Store :=
      if ev.httpMethod = some "GET" then
        (handle_get_user_settings st ev, st)
      else if ev.httpMethod = some "PUT" then
        handle_update_user_settings st ev user_id body
      else
        (get_400_response ev "Unsupported HTTP method", st)
    some ({ p.1 with headers := headers }, p.2)

end UserSettingsHandler

namespace UserImageHandler

def image_storage_bucket_name : String := "raspberrypi-image-storage"

def headers : List (String × String) :=
  [("Access-Control-Allow-Headers",
    "Content-Type,X-Amz-Date,Authorization,X-Api-Key,X-Amz-Security-Token"),
   ("Access-Control-Allow-Origin", "*"),
   ("Access-Control-Allow-Methods", "OPTIONS,GET,POST")]

def get_400_response (ev : Event) (message : String) : Response :=
  { statusCode := 400, headers := [], body := RespBody.failure ev message }

def get_200_response (ev : Event) (message : String) (data : Data) : Response :=
  { statusCode := 200, headers := [], body := RespBody.success ev message data }

/-- Reads `cp-hackathon-backend-user-settings-db-table`; when the record
exists it overwrites the claim-supplied username/email. -/
def get_user_settings (st : Store) (user_id : String)
    (username0 email0 : Option String) : Option String × Option String :=
  match getItem st.userSettingsDbTable user_id with
  | some item => (some item.username, some item.email)
  | none => (username0, email0)

/-- The image key is derived from the username by an f-string, which
renders a missing username as "None". -/
def generate_user_image_presigned_url (username : Option String) : PresignedUrl :=
  { bucket := image_storage_bucket_name, key := "roles/" ++ pyStr username ++ ".jpg" }

/-- `head_object` existence check; a missing object raises, is caught, and
yields `None`. -/
def get_user_image (st : Store) (username : Option String) : Option PresignedUrl :=
  let s3_key := "roles/" ++ pyStr username ++ ".jpg"
  match getItem st.imageBucket s3_key with
  | none => none
  | some _ => some (generate_user_image_presigned_url username)

def update_user_image (st : Store) (username : Option String)
    (image_data : List Nat) : PresignedUrl × Store :=
  let s3_key := "roles/" ++ pyStr username ++ ".jpg"
  let st2 := { st with imageBucket := putItem st.imageBucket s3_key image_data }
  (generate_user_image_presigned_url username, st2)

def handle_get_user_image (st : Store) (ev : Event) (user_id : Option String)
    (username : Option String) : Response :=
  match user_id with
  | none => get_400_response ev "Unauthorized: No user ID found in claims"
  | some _ =>
    match get_user_image st username with
    | none => get_400_response ev "Image not found"
    | some presigned_url =>
      get_200_response ev "Image found" (Data.imageUrlObj presigned_url)

/-- The base64 decode of the "image" field sits before the try/except, so
an undecodable field raises out of the handler (`none`). -/
def handle_update_user_image (st : Store) (ev : Event)
    (user_id : Option String) (username : Option String)
    (body : List (String × String)) : Option (Response × Store) :=
  match user_id with
  | none =>
    some (get_400_response ev "Unauthorized: No user ID found in claims", st)
  | some _ =>
    if dictContains body "image" = false then
      some (get_400_response ev "Image data is required", st)
    else
      match b64decode ((dictGet body "image").getD "") with
      | none => none
      | some image_data =>
        let us := update_user_image st username image_data
        some (get_200_response ev "Image updated successfully"
          (Data.imageUrlObj (generate_user_image_presigned_url username)), us.2)

/-- Entry point: dispatches on the HTTP method only.  A truthy claims
mapping without a "sub" makes the unconditional `get_user_settings()`
call hand a `None` key to the store collaborator (modelled as `none`). -/
def handle (st : Store) (ev : Event) : Option (Response × Store) :=
  match parseBody ev.body with
  | none => none
  | some body =>
    match ev.claims with
    | none =>
      let p : Option (Response × Store) :=
        if ev.httpMethod = some "GET" then
          some (handle_get_user_image st ev none none, st)
        else if ev.httpMethod = some "POST" then
          handle_update_user_image st ev none none body
        else
          some (get_400_response ev "Unsupported HTTP method", st)
      p.map (fun q => ({ q.1 with headers := headers }, q.2))
    | some c =>
      match c.sub with
      | none => none
      | some uid =>
        let username := (get_user_settings st uid c.cognitoUsername c.email).1
        let p : Option (Response × Store) :=
          if ev.httpMethod = some "GET" then
            some (handle_get_user_image st ev (some uid) username, st)
          else if ev.httpMethod = some "POST" then
            handle_update_user_image st ev (some uid) username body
          else
            some (get_400_response ev "Unsupported HTTP method", st)
        p.map (fun q => ({ q.1 with headers := headers }, q.2))

end UserImageHandler

namespace HistoryHandler

def image_storage_bucket_name : String := "raspberrypi-image-storage2"

def headers : List (String × String) :=
  [("Access-Control-Allow-Headers",
    "Content-Type,X-Amz-Date,Authorization,X-Api-Key,X-Amz-Security-Token"),
   ("Access-Control-Allow-Origin", "*"),
   ("Access-Control-Allow-Methods", "OPTIONS,GET,POST")]

def get_400_response (ev : Event) (message : String) : Response :=
  { statusCode := 400, headers := [], body := RespBody.failure ev message }

def get_200_response (ev : Event) (message : String) (data : Data) : Response :=
  { statusCode := 200, headers := [], body := RespBody.success ev message data }

def generate_presigned_url (s3_key : String) : Option PresignedUrl :=
  if s3_key == "" then none
  else some { bucket := image_storage_bucket_name, key := s3_key }

/-- Filter out directory keys from the listing, sort by key descending
(Python `list.sort(key=..., reverse=True)` is a stable merge sort),
truncate to `limit` entries, and attach presigned URLs. -/
def get_decoded_list (contents : List S3Object) (limit : Nat) :
    List DecodedEntry :=
  let decoded_stubs : List DecodedStub := contents.filterMap (fun item =>
    if item.key.endsWith "/" then none
    else some { s3_key := item.key, last_modified := item.lastModified })
  let sorted := decoded_stubs.mergeSort (fun a b => decide (b.s3_key ≤ a.s3_key))
  let truncated := sorted.take limit
  truncated.map (fun item =>
    { s3_key := item.s3_key, last_modified := item.last_modified,
      presigned_url := generate_presigned_url item.s3_key })

/-- Derive the results key by the decoded-to-results substitution, read
and parse the results object; any failure is caught and reported as an
error dictionary (with the collaborator's exception text abstracted). -/
def get_results_by_decoded_key (objects : List (String × Json))
    (decoded_key : String) : Json :=
  let results_key :=
    splitextRoot (decoded_key.replace "decoded/" "results/") ++ "_match.json"
  match getItem objects results_key with
  | some results => results
  | none =>
    Json.obj
      [("error", Json.str "NoSuchKey"),
       ("message", Json.str ("Error retrieving results for key: " ++ results_key))]

def handle_get_history_list (contents : List S3Object)
    (objects : List (String × Json)) (ev : Event) : Response :=
  let decoded_list := get_decoded_list contents 40
  let history_list := decoded_list.map (fun item =>
    ({ decoded := item,
       results := get_results_by_decoded_key objects item.s3_key } : HistoryEntry))
  get_200_response ev "History list retrieved successfully"
    (Data.historyListObj history_list)

/-- Entry point: `contents` is the collaborator's listing of the bucket
under Prefix "decoded/" and `objects` the results objects readable by
`get_object` (already parsed). -/
def handle (contents : List S3Object) (objects : List (String × Json))
    (ev : Event) : Option Response :=
  match parseBody ev.body with
  | none => none
  | some _ =>
    let r : Response :=
      if ev.path = some "/history/list" then
        if ev.httpMethod = some "GET" then
          handle_get_history_list contents objects ev
        else
          get_400_response ev "Unsupported HTTP method"
      else
        get_400_response ev ("Unsupported path: " ++ pyStr ev.path)
    some { r with headers := headers }

end HistoryHandler

/-- The empty world state. -/
def emptyStore : Store :=
  { musicsDbTable := [], userSettingsDbTable := [],
    acctUserSettingsDbTable := [], musicsBucket := [], imageBucket := [] }

/-- Holds when a truthy claims mapping carries a subject id, so that the
music/image handlers' unconditional `get_user_settings()` call does not
hand a `None` key to the store. -/
def claimsSubOk (ev : Event) : Bool :=
  match ev.claims with
  | none => true
  | some c => c.sub.isSome

/-- Holds when the query-parameter access performed by GET/DELETE /music
does not hit a JSON-null queryStringParameters value. -/
def musicQueryOk (ev : Event) : Bool :=
  if ev.path == some "/music" &&
      (ev.httpMethod == some "GET" || ev.httpMethod == some "DELETE") then
    ev.queryStringParameters != QueryParams.null
  else true

/-- Holds when the base64 decode that an authenticated, fully populated
upload request performs succeeds (the decode sits outside the try/except,
so its failure is an unhandled fault). -/
def uploadDecodeOk (ev : Event) : Bool :=
  match parseBody ev.body with
  | none => true
  | some d =>
    if ev.path == some "/music" && ev.httpMethod == some "POST" &&
        (resolveUserId ev.claims).isSome && dictContains d "music" &&
        dictContains d "title" && dictContains d "extension" then
      (b64decode ((dictGet d "music").getD "")).isSome
    else true

/-- First of the three required settings fields absent from the body, in
the order the source checks them. -/
def firstMissingField (d : List (String × String)) : Option String :=
  if dictContains d "username" = false then some "username"
  else if dictContains d "email" = false then some "email"
  else if dictContains d "music_id" = false then some "music_id"
  else none

/-- Expected outcome of an authenticated settings update, written after
the spec sentence: a missing required field is reported by name and leaves
the store untouched; with all three fields present the update succeeds and
overwrites all three fields of the record. -/
def settingsUpdateSpec (st : Store) (ev : Event) (uid : String)
    (d : List (String × String)) : Response × Store :=
  match firstMissingField d with
  | some f =>
    ({ statusCode := 400, headers := UserSettingsHandler.headers,
       body := RespBody.failure ev ("Missing required field: " ++ f) }, st)
  | none =>
    let username := (dictGet d "username").getD ""
    let email := (dictGet d "email").getD ""
    let music_id := (dictGet d "music_id").getD ""
    let item : SettingsItem :=
      { username := username, email := email, music_id := music_id }
    let data : SettingsOut :=
      { user_id := uid, username := username, email := email,
        music_id := music_id }
    ({ statusCode := 200, headers := UserSettingsHandler.headers,
       body := RespBody.success ev "Settings updated" (Data.settings data) },
     { st with acctUserSettingsDbTable :=
         putItem st.acctUserSettingsDbTable uid item })

/-- Concrete identity claims used by the concrete test inputs below. -/
def claimsU1 : Claims :=
  { sub := some "u1", cognitoUsername := some "alice",
    email := some "a@example.com" }

/-- Event with a path no music route recognizes. -/
def evFoo : Event :=
  { path := some "/foo", httpMethod := some "GET", body := RawBody.noBody,
    queryStringParameters := QueryParams.absent, claims := none }

/-- GET settings event whose body is present but not valid JSON. -/
def evMalformed : Event :=
  { path := some "/user/settings", httpMethod := some "GET",
    body := RawBody.malformed, queryStringParameters := QueryParams.absent,
    claims := none }

/-- Authenticated DELETE /music for an id with no record. -/
def evDeleteAbsent : Event :=
  { path := some "/music", httpMethod := some "DELETE",
    body := RawBody.noBody,
    queryStringParameters := QueryParams.dict [("music_id", "m1")],
    claims := some claimsU1 }

/-- GET settings for user u1 with no identity claims attached. -/
def evGetSettingsNoAuth : Event :=
  { path := some "/user/settings", httpMethod := some "GET",
    body := RawBody.noBody,
    queryStringParameters := QueryParams.dict [("user_id", "u1")],
    claims := none }

/-- Store holding a settings record for user u1 in the account-scoped
settings table. -/
def storeWithU1 : Store :=
  { emptyStore with acctUserSettingsDbTable :=
      [("u1", { username := "alice", email := "a@example.com",
                music_id := "m1" })] }

/-- Settings event with a method the settings handler does not route. -/
def evBadMethod : Event :=
  { path := some "/user/settings", httpMethod := some "DELETE",
    body := RawBody.noBody, queryStringParameters := QueryParams.absent,
    claims := none }

/-- Unauthenticated upload whose body is present but not valid JSON. -/
def evUploadNoAuthMalformed : Event :=
  { path := some "/music", httpMethod := some "POST",
    body := RawBody.malformed, queryStringParameters := QueryParams.absent,
    claims := none }

/-- Unauthenticated, fully populated upload request. -/
def evUploadNoAuth : Event :=
  { path := some "/music", httpMethod := some "POST",
    body := RawBody.parsed
      [("music", "AAAA"), ("title", "Song A"), ("extension", "mp3")],
    queryStringParameters := QueryParams.absent, claims := none }

/-- Authenticated, fully populated upload request. -/
def evUpload : Event :=
  { evUploadNoAuth with claims := some claimsU1 }

/-- Public GET /music for the id generated by the concrete upload. -/
def evGetUploaded : Event :=
  { path := some "/music", httpMethod := some "GET", body := RawBody.noBody,
    queryStringParameters := QueryParams.dict [("music_id", "id1")],
    claims := none }

/-- Authenticated PUT settings whose body lacks the email field. -/
def evPutMissingEmail : Event :=
  { path := some "/user/settings", httpMethod := some "PUT",
    body := RawBody.parsed [("username", "bob"), ("music_id", "m2")],
    queryStringParameters := QueryParams.absent, claims := some claimsU1 }

/-- Concrete listing for the history handler: one directory key and three
image keys out of order. -/
def contentsSample : List S3Object :=
  [{ key := "decoded/", lastModified := "2024-01-01 00:00:00" },
   { key := "decoded/a.png", lastModified := "2024-01-02 00:00:00" },
   { key := "decoded/c.png", lastModified := "2024-01-03 00:00:00" },
   { key := "decoded/b.png", lastModified := "2024-01-04 00:00:00" }]

/-- GET /history/list event. -/
def evHistory : Event :=
  { path := some "/history/list", httpMethod := some "GET",
    body := RawBody.noBody, queryStringParameters := QueryParams.absent,
    claims := none }

/-- Success response of the settings handler with the given message and
data payload, as emitted through its response builder. -/
def settingsOkResponse (ev : Event) (m : String) (d : Data) : Response :=
  { statusCode := 200, headers := UserSettingsHandler.headers,
    body := RespBody.success ev m d }

/-- Failure response of the settings handler with the given message. -/
def settingsFailResponse (ev : Event) (m : String) : Response :=
  { statusCode := 400, headers := UserSettingsHandler.headers,
    body := RespBody.failure ev m }

/-- Success response of the music handler with the given message and data
payload, as emitted through its response builder plus the header
attachment in `handle`. -/
def musicOkResponse (ev : Event) (m : String) (d : Data) : Response :=
  { statusCode := 200, headers := MusicHandler.headers,
    body := RespBody.success ev m d }

/-- Failure response of the music handler with the given message. -/
def musicFailResponse (ev : Event) (m : String) : Response :=
  { statusCode := 400, headers := MusicHandler.headers,
    body := RespBody.failure ev m }

/-- Failure response of the image handler with the given message. -/
def imageFailResponse (ev : Event) (m : String) : Response :=
  { statusCode := 400, headers := UserImageHandler.headers,
    body := RespBody.failure ev m }

/-- Success response of the history handler with the given message and
data payload. -/
def historyOkResponse (ev : Event) (m : String) (d : Data) : Response :=
  { statusCode := 200, headers := HistoryHandler.headers,
    body := RespBody.success ev m d }

/-- Settings payload with the given user id and all other fields empty. -/
def emptySettingsOut (u : String) : SettingsOut :=
  { user_id := u, username := "", email := "", music_id := "" }

/-- Storage key generated by `upload_music` for the given title, extension
and generated id. -/
def uploadedKey (t ext u : String) : String :=
  "musics/" ++ t ++ "_" ++ u ++ "." ++ ext

/-- Metadata record written by `upload_music` for the given owner, title,
extension, generated id and timestamp. -/
def uploadedRecord (uid t ext u now : String) : MusicItem :=
  { music_id := u, title := t, s3_key := uploadedKey t ext u,
    user_id := uid, created_at := now }

/-- Record that a get-by-id returns for the freshly uploaded track: the
same fields plus a signed URL for the configured music bucket under the
generated key. -/
def uploadedView (uid t ext u : String) : MusicView :=
  let url : PresignedUrl :=
    { bucket := MusicHandler.musics_storage_bucket_name,
      key := uploadedKey t ext u }
  { music_id := u, title := t, s3_key := uploadedKey t ext u, user_id := uid,
    presigned_url := some url }

/-- Body of the concrete settings update that lacks the email field. -/
def dPutMissingEmail : List (String × String) :=
  [("username", "bob"), ("music_id", "m2")]

/-- Body of the concrete upload request. -/
def dUpload : List (String × String) :=
  [("music", "AAAA"), ("title", "Song A"), ("extension", "mp3")]

/-! Helper lemmas shared by the claim theorems. -/

theorem envelopeOk_fail (ev : Event) (m : String) (H : List (String × String)) :
    EnvelopeOk { statusCode := 400, headers := H, body := RespBody.failure ev m } :=
  Or.inr ⟨rfl, ev, m, rfl, rfl⟩

theorem envelopeOk_succ (ev : Event) (m : String) (d : Data)
    (H : List (String × String)) :
    EnvelopeOk { statusCode := 200, headers := H, body := RespBody.success ev m d } :=
  Or.inl ⟨rfl, ev, m, d, rfl, rfl⟩

theorem envelopeOk_setHeaders (r : Response) (H : List (String × String))
    (h : EnvelopeOk r) : EnvelopeOk { r with headers := H } := by
  cases r
  exact h

theorem parseBody_of_ne_malformed (b : RawBody) (h : b ≠ RawBody.malformed) :
    ∃ d, parseBody b = some d := by
  cases b with
  | noBody => exact ⟨[], rfl⟩
  | malformed => exact absurd rfl h
  | parsed d => exact ⟨d, rfl⟩

theorem getItem_putItem_self {α : Type} (tbl : List (String × α)) (k : String)
    (v : α) : getItem (putItem tbl k v) k = some v := by
  simp [getItem, putItem]

theorem dictContains_of_get (d : List (String × String)) (k v : String)
    (h : dictGet d k = some v) : dictContains d k = true := by
  simp [dictContains, h]

/-- C10: a GET user-settings request whose user_id has no record in the
settings store is not a not-found failure: it returns a success envelope
whose data carries that user_id with username, email and music_id all
empty. -/
theorem c10_get_settings_absent_user_defaults
    (st : Store) (ev : Event) (q : List (String × String)) (u : String)
    (hm : ev.httpMethod = some "GET") (hb : ev.body ≠ RawBody.malformed)
    (hq : ev.queryStringParameters = QueryParams.dict q)
    (hu : dictGet q "user_id" = some u)
    (hs : getItem st.acctUserSettingsDbTable u = none) :
    UserSettingsHandler.handle st ev =
      some (settingsOkResponse ev "Settings retrieved"
        (Data.settings (emptySettingsOut u)), st) := by
  obtain ⟨d, hd⟩ := parseBody_of_ne_malformed ev.body hb
  simp [UserSettingsHandler.handle, hd, hm,
    UserSettingsHandler.handle_get_user_settings, hq, dictContains, hu,
    UserSettingsHandler.get_user_settings, hs,
    UserSettingsHandler.get_200_response, settingsOkResponse, emptySettingsOut]

/-- Witness for C10 at a concrete request and store. -/
theorem c10_witness :
    evGetSettingsNoAuth.httpMethod = some "GET" ∧
    evGetSettingsNoAuth.body ≠ RawBody.malformed ∧
    evGetSettingsNoAuth.queryStringParameters =
      QueryParams.dict [("user_id", "u1")] ∧
    dictGet [("user_id", "u1")] "user_id" = some "u1" ∧
    getItem emptyStore.acctUserSettingsDbTable "u1" = none ∧
    UserSettingsHandler.handle emptyStore evGetSettingsNoAuth =
      some (settingsOkResponse evGetSettingsNoAuth "Settings retrieved"
        (Data.settings (emptySettingsOut "u1")), emptyStore) :=
  ⟨rfl, by decide, rfl, rfl, rfl,
    c10_get_settings_absent_user_defaults emptyStore evGetSettingsNoAuth
      [("user_id", "u1")] "u1" rfl (by decide) rfl rfl rfl⟩

/-- C4 counterexample: a GET user-settings request with no identity claims
attached is answered with the stored settings data and status 200, not
rejected. -/
theorem c4_counterexample :
    evGetSettingsNoAuth.claims = none ∧
    UserSettingsHandler.handle storeWithU1 evGetSettingsNoAuth =
      some (settingsOkResponse evGetSettingsNoAuth "Settings retrieved"
        (Data.settings
          { user_id := "u1", username := "alice", email := "a@example.com",
            music_id := "m1" }), storeWithU1) :=
  ⟨rfl, rfl⟩

/-- C4 amended: the GET user-settings operation never consults the
identity claims; for any claims value (including none) it returns the
stored settings of the user_id named in the query string. -/
theorem c4_get_settings_ignores_identity
    (st : Store) (ev : Event) (q : List (String × String)) (u : String)
    (hm : ev.httpMethod = some "GET") (hb : ev.body ≠ RawBody.malformed)
    (hq : ev.queryStringParameters = QueryParams.dict q)
    (hu : dictGet q "user_id" = some u) :
    UserSettingsHandler.handle st ev =
      some (settingsOkResponse ev "Settings retrieved"
        (Data.settings (UserSettingsHandler.get_user_settings st u)), st) := by
  obtain ⟨d, hd⟩ := parseBody_of_ne_malformed ev.body hb
  simp [UserSettingsHandler.handle, hd, hm,
    UserSettingsHandler.handle_get_user_settings, hq, dictContains, hu,
    UserSettingsHandler.get_200_response, settingsOkResponse]

/-- Witness for the amended C4 at a concrete unauthenticated request. -/
theorem c4_witness :
    evGetSettingsNoAuth.httpMethod = some "GET" ∧
    evGetSettingsNoAuth.body ≠ RawBody.malformed ∧
    evGetSettingsNoAuth.queryStringParameters =
      QueryParams.dict [("user_id", "u1")] ∧
    dictGet [("user_id", "u1")] "user_id" = some "u1" ∧
    UserSettingsHandler.handle storeWithU1 evGetSettingsNoAuth =
      some (settingsOkResponse evGetSettingsNoAuth "Settings retrieved"
        (Data.settings
          (UserSettingsHandler.get_user_settings storeWithU1 "u1")),
        storeWithU1) :=
  ⟨rfl, by decide, rfl, rfl,
    c4_get_settings_ignores_identity storeWithU1 evGetSettingsNoAuth
      [("user_id", "u1")] "u1" rfl (by decide) rfl rfl⟩

/-- C3 counterexample: an authenticated DELETE /music for an id with no
record answers with the success envelope (status 200, message "Music
deleted successfully"), not with a failure envelope. -/
theorem c3_counterexample :
    MusicHandler.handle emptyStore "id1" "t1" evDeleteAbsent =
      some (musicOkResponse evDeleteAbsent "Music deleted successfully"
        Data.emptyObj, emptyStore) := rfl

/-- C3 amended: deleting an absent music id performs no store or
object-storage mutation (the store comes back unchanged) and returns the
success envelope, so repeated deletes of the same id are idempotent in
effect. -/
theorem c3_delete_absent_is_noop
    (st : Store) (freshId now : String) (ev : Event) (c : Claims)
    (uid : String) (q : List (String × String)) (m : String)
    (hc : ev.claims = some c) (hsub : c.sub = some uid)
    (hp : ev.path = some "/music") (hm : ev.httpMethod = some "DELETE")
    (hb : ev.body ≠ RawBody.malformed)
    (hq : ev.queryStringParameters = QueryParams.dict q)
    (hmid : dictGet q "music_id" = some m) (hne : m ≠ "")
    (habsent : getItem st.musicsDbTable m = none) :
    MusicHandler.handle st freshId now ev =
      some (musicOkResponse ev "Music deleted successfully" Data.emptyObj,
        st) := by
  obtain ⟨d, hd⟩ := parseBody_of_ne_malformed ev.body hb
  simp [MusicHandler.handle, hd, hc, hsub, MusicHandler.dispatch, hp, hm,
    MusicHandler.handle_delete_music, MusicHandler.getQueryParams, hq,
    hmid, pyTruthy, hne, MusicHandler.delete_music,
    MusicHandler.get_music_by_id, habsent, MusicHandler.get_200_response,
    musicOkResponse]

/-- Witness for the amended C3 at a concrete request and empty store. -/
theorem c3_witness :
    evDeleteAbsent.claims = some claimsU1 ∧
    claimsU1.sub = some "u1" ∧
    evDeleteAbsent.path = some "/music" ∧
    evDeleteAbsent.httpMethod = some "DELETE" ∧
    evDeleteAbsent.body ≠ RawBody.malformed ∧
    evDeleteAbsent.queryStringParameters =
      QueryParams.dict [("music_id", "m1")] ∧
    dictGet [("music_id", "m1")] "music_id" = some "m1" ∧
    "m1" ≠ "" ∧
    getItem emptyStore.musicsDbTable "m1" = none ∧
    MusicHandler.handle emptyStore "id1" "t1" evDeleteAbsent =
      some (musicOkResponse evDeleteAbsent "Music deleted successfully"
        Data.emptyObj, emptyStore) :=
  ⟨rfl, rfl, rfl, rfl, by decide, rfl, rfl, by decide, rfl,
    c3_delete_absent_is_noop emptyStore "id1" "t1" evDeleteAbsent claimsU1
      "u1" [("music_id", "m1")] "m1" rfl rfl rfl rfl (by decide) rfl rfl
      (by decide) rfl⟩

theorem pairSome_inj_fst {r0 r : Response} {st0 st2 : Store}
    (h : some (r0, st0) = some (r, st2)) : r0 = r :=
  congrArg Prod.fst (Option.some.inj h)

theorem envOk_map_setHeaders (o : Option (Response × Store))
    (H : List (String × String)) (r : Response) (st2 : Store)
    (hall : ∀ r0 st0, o = some (r0, st0) → EnvelopeOk r0)
    (h : o.map (fun p => ({ p.1 with headers := H }, p.2)) = some (r, st2)) :
    EnvelopeOk r := by
  cases o with
  | none => simp at h
  | some p =>
    obtain ⟨r0, st0⟩ := p
    have h2 : (({ r0 with headers := H } : Response), st0) = (r, st2) :=
      Option.some.inj h
    have hr : ({ r0 with headers := H } : Response) = r := congrArg Prod.fst h2
    subst hr
    exact envelopeOk_setHeaders r0 H (hall r0 st0 rfl)

theorem envOk_settings_get (st : Store) (ev : Event) :
    EnvelopeOk (UserSettingsHandler.handle_get_user_settings st ev) := by
  unfold UserSettingsHandler.handle_get_user_settings
  dsimp only
  split
  next => exact envelopeOk_fail ev _ _
  next => exact envelopeOk_succ ev _ _ _

theorem envOk_settings_update (st : Store) (ev : Event)
    (user_id : Option String) (body : List (String × String)) :
    EnvelopeOk (UserSettingsHandler.handle_update_user_settings st ev user_id body).1 := by
  unfold UserSettingsHandler.handle_update_user_settings
  split
  next => exact envelopeOk_fail ev _ _
  next uid =>
    split
    next => exact envelopeOk_fail ev _ _
    next => exact envelopeOk_succ ev _ _ _

theorem envOk_settings_handle (st : Store) (ev : Event) (r : Response)
    (st2 : Store) (h : UserSettingsHandler.handle st ev = some (r, st2)) :
    EnvelopeOk r := by
  unfold UserSettingsHandler.handle at h
  split at h
  next => simp at h
  next body heq =>
    have h2 := Option.some.inj h
    have hr : ({ (if ev.httpMethod = some "GET" then
        (UserSettingsHandler.handle_get_user_settings st ev, st)
      else if ev.httpMethod = some "PUT" then
        UserSettingsHandler.handle_update_user_settings st ev
          (resolveUserId ev.claims) body
      else
        (UserSettingsHandler.get_400_response ev "Unsupported HTTP method",
          st)).1 with headers := UserSettingsHandler.headers } : Response) = r :=
      congrArg Prod.fst h2
    subst hr
    apply envelopeOk_setHeaders
    split
    next => exact envOk_settings_get st ev
    next =>
      split
      next => exact envOk_settings_update st ev _ body
      next => exact envelopeOk_fail ev _ _

theorem envOk_music_get_by_id (st : Store) (ev : Event) (r : Response)
    (h : MusicHandler.handle_get_music_by_id st ev = some r) :
    EnvelopeOk r := by
  unfold MusicHandler.handle_get_music_by_id at h
  split at h
  next => simp at h
  next q =>
    dsimp only at h
    split at h
    next =>
      have hr := Option.some.inj h
      subst hr
      exact envelopeOk_fail ev _ _
    next =>
      split at h
      next =>
        have hr := Option.some.inj h
        subst hr
        exact envelopeOk_fail ev _ _
      next =>
        have hr := Option.some.inj h
        subst hr
        exact envelopeOk_succ ev _ _ _

theorem envOk_music_upload (st : Store) (ev : Event) (user_id : Option String)
    (body : List (String × String)) (freshId now : String) (r : Response)
    (st2 : Store)
    (h : MusicHandler.handle_upload_music st ev user_id body freshId now =
      some (r, st2)) : EnvelopeOk r := by
  unfold MusicHandler.handle_upload_music at h
  split at h
  next =>
    have hr := pairSome_inj_fst h
    subst hr
    exact envelopeOk_fail ev _ _
  next uid =>
    split at h
    next =>
      have hr := pairSome_inj_fst h
      subst hr
      exact envelopeOk_fail ev _ _
    next =>
      split at h
      next =>
        have hr := pairSome_inj_fst h
        subst hr
        exact envelopeOk_fail ev _ _
      next =>
        split at h
        next =>
          have hr := pairSome_inj_fst h
          subst hr
          exact envelopeOk_fail ev _ _
        next =>
          split at h
          next => simp at h
          next =>
            have hr := pairSome_inj_fst h
            subst hr
            exact envelopeOk_succ ev _ _ _

theorem envOk_music_delete (st : Store) (ev : Event) (user_id : Option String)
    (r : Response) (st2 : Store)
    (h : MusicHandler.handle_delete_music st ev user_id = some (r, st2)) :
    EnvelopeOk r := by
  unfold MusicHandler.handle_delete_music at h
  split at h
  next =>
    have hr := pairSome_inj_fst h
    subst hr
    exact envelopeOk_fail ev _ _
  next =>
    split at h
    next => simp at h
    next q =>
      dsimp only at h
      split at h
      next =>
        have hr := pairSome_inj_fst h
        subst hr
        exact envelopeOk_fail ev _ _
      next =>
        have hr := pairSome_inj_fst h
        subst hr
        exact envelopeOk_succ ev _ _ _

theorem envOk_music_dispatch (st : Store) (ev : Event)
    (user_id : Option String) (body : List (String × String))
    (freshId now : String) (r : Response) (st2 : Store)
    (h : MusicHandler.dispatch st ev user_id body freshId now = some (r, st2)) :
    EnvelopeOk r := by
  unfold MusicHandler.dispatch at h
  split at h
  next =>
    split at h
    next =>
      cases hg : MusicHandler.handle_get_music_by_id st ev with
      | none => rw [hg] at h; simp at h
      | some r0 =>
        rw [hg] at h
        have h2 : ((r0, st) : Response × Store) = (r, st2) := Option.some.inj h
        have hr : r0 = r := congrArg Prod.fst h2
        subst hr
        exact envOk_music_get_by_id st ev r0 hg
    next =>
      split at h
      next => exact envOk_music_upload st ev user_id body freshId now r st2 h
      next =>
        split at h
        next => exact envOk_music_delete st ev user_id r st2 h
        next =>
          have hr := pairSome_inj_fst h
          subst hr
          exact envelopeOk_fail ev _ _
  next =>
    split at h
    next =>
      split at h
      next =>
        have hr := pairSome_inj_fst h
        subst hr
        exact envelopeOk_succ ev _ _ _
      next =>
        have hr := pairSome_inj_fst h
        subst hr
        exact envelopeOk_fail ev _ _
    next => simp at h

theorem envOk_music_handle (st : Store) (freshId now : String) (ev : Event)
    (r : Response) (st2 : Store)
    (h : MusicHandler.handle st freshId now ev = some (r, st2)) :
    EnvelopeOk r := by
  unfold MusicHandler.handle at h
  split at h
  next => simp at h
  next body heq =>
    split at h
    next =>
      exact envOk_map_setHeaders _ _ r st2
        (fun r0 st0 hd0 =>
          envOk_music_dispatch st ev none body freshId now r0 st0 hd0) h
    next =>
      split at h
      next => simp at h
      next =>
        exact envOk_map_setHeaders _ _ r st2
          (fun r0 st0 hd0 =>
            envOk_music_dispatch st ev _ body freshId now r0 st0 hd0) h

theorem envOk_image_get (st : Store) (ev : Event) (user_id : Option String)
    (username : Option String) :
    EnvelopeOk (UserImageHandler.handle_get_user_image st ev user_id username) := by
  unfold UserImageHandler.handle_get_user_image
  split
  next => exact envelopeOk_fail ev _ _
  next =>
    split
    next => exact envelopeOk_fail ev _ _
    next => exact envelopeOk_succ ev _ _ _

theorem envOk_image_update (st : Store) (ev : Event) (user_id : Option String)
    (username : Option String) (body : List (String × String)) (r : Response)
    (st2 : Store)
    (h : UserImageHandler.handle_update_user_image st ev user_id username body =
      some (r, st2)) : EnvelopeOk r := by
  unfold UserImageHandler.handle_update_user_image at h
  split at h
  next =>
    have hr := pairSome_inj_fst h
    subst hr
    exact envelopeOk_fail ev _ _
  next =>
    split at h
    next =>
      have hr := pairSome_inj_fst h
      subst hr
      exact envelopeOk_fail ev _ _
    next =>
      split at h
      next => simp at h
      next =>
        have hr := pairSome_inj_fst h
        subst hr
        exact envelopeOk_succ ev _ _ _

theorem envOk_image_branch (st : Store) (ev : Event) (user_id : Option String)
    (username : Option String) (body : List (String × String)) (r : Response)
    (st2 : Store)
    (h : (if ev.httpMethod = some "GET" then
        some (UserImageHandler.handle_get_user_image st ev user_id username, st)
      else if ev.httpMethod = some "POST" then
        UserImageHandler.handle_update_user_image st ev user_id username body
      else
        some (UserImageHandler.get_400_response ev "Unsupported HTTP method", st)) =
      some (r, st2)) : EnvelopeOk r := by
  split at h
  next =>
    have hr := pairSome_inj_fst h
    subst hr
    exact envOk_image_get st ev user_id username
  next =>
    split at h
    next => exact envOk_image_update st ev user_id username body r st2 h
    next =>
      have hr := pairSome_inj_fst h
      subst hr
      exact envelopeOk_fail ev _ _

theorem envOk_image_handle (st : Store) (ev : Event) (r : Response)
    (st2 : Store) (h : UserImageHandler.handle st ev = some (r, st2)) :
    EnvelopeOk r := by
  unfold UserImageHandler.handle at h
  split at h
  next => simp at h
  next body heq =>
    split at h
    next =>
      exact envOk_map_setHeaders _ _ r st2
        (fun r0 st0 hd0 => envOk_image_branch st ev none none body r0 st0 hd0) h
    next =>
      split at h
      next => simp at h
      next =>
        exact envOk_map_setHeaders _ _ r st2
          (fun r0 st0 hd0 => envOk_image_branch st ev _ _ body r0 st0 hd0) h

theorem envOk_history_handle (contents : List S3Object)
    (objects : List (String × Json)) (ev : Event) (r : Response)
    (h : HistoryHandler.handle contents objects ev = some r) : EnvelopeOk r := by
  unfold HistoryHandler.handle at h
  split at h
  next => simp at h
  next body heq =>
    have hr : ({ (if ev.path = some "/history/list" then
        (if ev.httpMethod = some "GET" then
          HistoryHandler.handle_get_history_list contents objects ev
        else
          HistoryHandler.get_400_response ev "Unsupported HTTP method")
      else
        HistoryHandler.get_400_response ev
          ("Unsupported path: " ++ pyStr ev.path)) with
      headers := HistoryHandler.headers } : Response) = r := Option.some.inj h
    subst hr
    apply envelopeOk_setHeaders
    split
    next =>
      split
      next => exact envelopeOk_succ ev _ _ _
      next => exact envelopeOk_fail ev _ _
    next => exact envelopeOk_fail ev _ _

theorem settings_handle_total (st : Store) (ev : Event)
    (hb : ev.body ≠ RawBody.malformed) :
    ∃ r st2, UserSettingsHandler.handle st ev = some (r, st2) := by
  obtain ⟨d, hd⟩ := parseBody_of_ne_malformed ev.body hb
  unfold UserSettingsHandler.handle
  rw [hd]
  exact ⟨_, _, rfl⟩

theorem getQueryParams_total (ev : Event)
    (hq : ev.queryStringParameters ≠ QueryParams.null) :
    ∃ q, MusicHandler.getQueryParams ev = some q := by
  unfold MusicHandler.getQueryParams
  cases hqq : ev.queryStringParameters with
  | absent => exact ⟨[], rfl⟩
  | null => exact absurd hqq hq
  | dict d => exact ⟨d, rfl⟩

theorem music_get_by_id_total (st : Store) (ev : Event)
    (hq : ev.queryStringParameters ≠ QueryParams.null) :
    ∃ r, MusicHandler.handle_get_music_by_id st ev = some r := by
  obtain ⟨q, hqp⟩ := getQueryParams_total ev hq
  unfold MusicHandler.handle_get_music_by_id
  rw [hqp]
  dsimp only
  split
  next => exact ⟨_, rfl⟩
  next =>
    cases hg : MusicHandler.get_music_by_id st ((dictGet q "music_id").getD "") with
    | none => exact ⟨_, rfl⟩
    | some m => exact ⟨_, rfl⟩

theorem music_delete_total (st : Store) (ev : Event) (user_id : Option String)
    (hq : user_id.isSome = true → ev.queryStringParameters ≠ QueryParams.null) :
    ∃ r st2, MusicHandler.handle_delete_music st ev user_id = some (r, st2) := by
  unfold MusicHandler.handle_delete_music
  cases user_id with
  | none => exact ⟨_, _, rfl⟩
  | some uid =>
    obtain ⟨q, hqp⟩ := getQueryParams_total ev (hq rfl)
    rw [hqp]
    dsimp only
    split
    next => exact ⟨_, _, rfl⟩
    next => exact ⟨_, _, rfl⟩

theorem music_upload_total (st : Store) (ev : Event) (user_id : Option String)
    (body : List (String × String)) (freshId now : String)
    (hdec : user_id ≠ none → dictContains body "music" = true →
      dictContains body "title" = true → dictContains body "extension" = true →
      (b64decode ((dictGet body "music").getD "")).isSome = true) :
    ∃ r st2, MusicHandler.handle_upload_music st ev user_id body freshId now =
      some (r, st2) := by
  unfold MusicHandler.handle_upload_music
  cases user_id with
  | none => exact ⟨_, _, rfl⟩
  | some uid =>
    dsimp only
    by_cases h1 : dictContains body "music" = false
    · rw [if_pos h1]; exact ⟨_, _, rfl⟩
    · rw [if_neg h1]
      by_cases h2 : dictContains body "title" = false
      · rw [if_pos h2]; exact ⟨_, _, rfl⟩
      · rw [if_neg h2]
        by_cases h3 : dictContains body "extension" = false
        · rw [if_pos h3]; exact ⟨_, _, rfl⟩
        · rw [if_neg h3]
          have h1t : dictContains body "music" = true := by
            revert h1; cases dictContains body "music" <;> simp
          have h2t : dictContains body "title" = true := by
            revert h2; cases dictContains body "title" <;> simp
          have h3t : dictContains body "extension" = true := by
            revert h3; cases dictContains body "extension" <;> simp
          have hds := hdec (by simp) h1t h2t h3t
          obtain ⟨md, hmd⟩ := Option.isSome_iff_exists.mp hds
          rw [hmd]
          exact ⟨_, _, rfl⟩

theorem music_dispatch_total (st : Store) (ev : Event)
    (user_id : Option String) (body : List (String × String))
    (freshId now : String)
    (hp : ev.path = some "/music" ∨ ev.path = some "/music/list")
    (hqn : ev.path = some "/music" →
      (ev.httpMethod = some "GET" ∨ ev.httpMethod = some "DELETE") →
      ev.queryStringParameters ≠ QueryParams.null)
    (hdec : ev.path = some "/music" → ev.httpMethod = some "POST" →
      user_id ≠ none → dictContains body "music" = true →
      dictContains body "title" = true → dictContains body "extension" = true →
      (b64decode ((dictGet body "music").getD "")).isSome = true) :
    ∃ r st2, MusicHandler.dispatch st ev user_id body freshId now =
      some (r, st2) := by
  unfold MusicHandler.dispatch
  rcases hp with hp | hp
  · rw [hp, if_pos rfl]
    by_cases hg : ev.httpMethod = some "GET"
    · rw [if_pos hg]
      obtain ⟨r, hr⟩ := music_get_by_id_total st ev (hqn hp (Or.inl hg))
      rw [hr]
      exact ⟨_, _, rfl⟩
    · rw [if_neg hg]
      by_cases hpo : ev.httpMethod = some "POST"
      · rw [if_pos hpo]
        exact music_upload_total st ev user_id body freshId now (hdec hp hpo)
      · rw [if_neg hpo]
        by_cases hde : ev.httpMethod = some "DELETE"
        · rw [if_pos hde]
          exact music_delete_total st ev user_id
            (fun _ => hqn hp (Or.inr hde))
        · rw [if_neg hde]
          exact ⟨_, _, rfl⟩
  · have hne : ¬(ev.path = some "/music") := by rw [hp]; decide
    rw [if_neg hne, hp, if_pos rfl]
    by_cases hg : ev.httpMethod = some "GET"
    · rw [if_pos hg]; exact ⟨_, _, rfl⟩
    · rw [if_neg hg]; exact ⟨_, _, rfl⟩

theorem music_handle_total (st : Store) (freshId now : String) (ev : Event)
    (hb : ev.body ≠ RawBody.malformed)
    (hp : ev.path = some "/music" ∨ ev.path = some "/music/list")
    (hcs : claimsSubOk ev = true) (hq : musicQueryOk ev = true)
    (hup : uploadDecodeOk ev = true) :
    ∃ r st2, MusicHandler.handle st freshId now ev = some (r, st2) := by
  obtain ⟨body, hd⟩ := parseBody_of_ne_malformed ev.body hb
  have hqn : ev.path = some "/music" →
      (ev.httpMethod = some "GET" ∨ ev.httpMethod = some "DELETE") →
      ev.queryStringParameters ≠ QueryParams.null := by
    intro hp1 hm heq
    unfold musicQueryOk at hq
    rw [hp1, heq] at hq
    rcases hm with hm | hm <;> rw [hm] at hq <;> simp at hq
  have hdec : ∀ u, resolveUserId ev.claims = u → ev.path = some "/music" →
      ev.httpMethod = some "POST" → u ≠ none →
      dictContains body "music" = true → dictContains body "title" = true →
      dictContains body "extension" = true →
      (b64decode ((dictGet body "music").getD "")).isSome = true := by
    intro u hu hp1 hm hune h1 h2 h3
    obtain ⟨uu, huu⟩ := Option.ne_none_iff_exists'.mp hune
    unfold uploadDecodeOk at hup
    rw [hd] at hup
    dsimp only at hup
    rw [hp1, hm, hu, huu, h1, h2, h3] at hup
    simpa using hup
  cases hc : ev.claims with
  | none =>
    obtain ⟨r, st2, hdisp⟩ := music_dispatch_total st ev none body freshId now
      hp hqn (fun _ _ hune _ _ _ => absurd rfl hune)
    unfold MusicHandler.handle
    rw [hd]
    dsimp only
    rw [hc]
    dsimp only
    rw [hdisp]
    exact ⟨_, _, rfl⟩
  | some c =>
    cases hs : c.sub with
    | none =>
      unfold claimsSubOk at hcs
      rw [hc] at hcs
      dsimp only at hcs
      rw [hs] at hcs
      simp at hcs
    | some uid =>
      have hru : resolveUserId ev.claims = some uid := by
        simp [resolveUserId, hc, hs]
      obtain ⟨r, st2, hdisp⟩ := music_dispatch_total st ev (some uid) body
        freshId now hp hqn
        (fun hp1 hm hune h1 h2 h3 => hdec (some uid) hru hp1 hm hune h1 h2 h3)
      unfold MusicHandler.handle
      rw [hd]
      dsimp only
      rw [hc]
      dsimp only
      rw [hs]
      dsimp only
      rw [hdisp]
      exact ⟨_, _, rfl⟩

/-- C1: dispatch is keyed on (path, method), but the music handler has no
branch for an unrecognized path: its `handle` leaves `response` unassigned
and raises UnboundLocalError instead of returning the "Unsupported path"
failure envelope the spec describes (the history handler does return it).
The theorem evaluates the music handler at the failing input: no response
is produced. -/
theorem c1_music_unrecognized_path_crash :
    MusicHandler.handle emptyStore "id1" "t1" evFoo = none := rfl

/-- C2 counterexample: a request whose body is present but not valid JSON
makes `json.loads` raise outside every try/except, so the handler produces
no failure envelope at all — the exception propagates as an unhandled
fault, contradicting the claim that no input does so. -/
theorem c2_counterexample :
    UserSettingsHandler.handle emptyStore evMalformed = none := rfl

/-- C2 amended: failures arising at the operation boundary are converted
into the 200/400 envelope — the settings handler returns an envelope for
every event whose body parses, and the music handler does so provided
additionally that the path is one it routes, a truthy claims mapping
carries a subject id, the query-parameter field read by GET/DELETE is not
JSON null, and the base64 "music" field of a fully populated authenticated
upload decodes; malformed JSON bodies and undecodable base64 fields raise
before that boundary and propagate as unhandled faults. -/
theorem c2_operation_boundary_envelopes :
    (∀ st ev, ev.body ≠ RawBody.malformed →
      ∃ r st2, UserSettingsHandler.handle st ev = some (r, st2) ∧
        EnvelopeOk r) ∧
    (∀ st freshId now ev, ev.body ≠ RawBody.malformed →
      (ev.path = some "/music" ∨ ev.path = some "/music/list") →
      claimsSubOk ev = true → musicQueryOk ev = true →
      uploadDecodeOk ev = true →
      ∃ r st2, MusicHandler.handle st freshId now ev = some (r, st2) ∧
        EnvelopeOk r) := by
  constructor
  · intro st ev hb
    obtain ⟨r, st2, h⟩ := settings_handle_total st ev hb
    exact ⟨r, st2, h, envOk_settings_handle st ev r st2 h⟩
  · intro st freshId now ev hb hp hcs hq hup
    obtain ⟨r, st2, h⟩ := music_handle_total st freshId now ev hb hp hcs hq hup
    exact ⟨r, st2, h, envOk_music_handle st freshId now ev r st2 h⟩

/-- Witness for the amended C2 at a concrete request. -/
theorem c2_witness :
    evGetSettingsNoAuth.body ≠ RawBody.malformed ∧
    (∃ r st2, UserSettingsHandler.handle emptyStore evGetSettingsNoAuth =
      some (r, st2) ∧ EnvelopeOk r) :=
  ⟨by decide,
    c2_operation_boundary_envelopes.1 emptyStore evGetSettingsNoAuth (by decide)⟩

/-- C5 counterexample: a failure response body serializes the keys event
and error, not the single key error the claim allows: the inbound event is
echoed as an additional top-level key. -/
theorem c5_counterexample :
    (UserSettingsHandler.handle emptyStore evBadMethod).map
      (fun p => RespBody.topKeys p.1.body) = some ["event", "error"] ∧
    ["event", "error"] ≠ ["error"] :=
  ⟨rfl, by decide⟩

/-- C5 amended: every response any handler returns is an envelope with
status 200 and a success body whose top-level keys are event, message,
data, or status 400 and a failure body whose top-level keys are event,
error; no other status codes or body shapes occur. -/
theorem c5_envelope_shape :
    (∀ st ev r st2, UserSettingsHandler.handle st ev = some (r, st2) →
      EnvelopeOk r) ∧
    (∀ st freshId now ev r st2,
      MusicHandler.handle st freshId now ev = some (r, st2) → EnvelopeOk r) ∧
    (∀ st ev r st2, UserImageHandler.handle st ev = some (r, st2) →
      EnvelopeOk r) ∧
    (∀ contents objects ev r, HistoryHandler.handle contents objects ev =
      some r → EnvelopeOk r) :=
  ⟨envOk_settings_handle,
   fun st freshId now ev r st2 h => envOk_music_handle st freshId now ev r st2 h,
   envOk_image_handle,
   envOk_history_handle⟩

/-- Witness for the amended C5 at a concrete request. -/
theorem c5_witness :
    UserSettingsHandler.handle emptyStore evBadMethod =
      some (settingsFailResponse evBadMethod "Unsupported HTTP method",
        emptyStore) ∧
    EnvelopeOk (settingsFailResponse evBadMethod "Unsupported HTTP method") :=
  ⟨rfl, c5_envelope_shape.1 emptyStore evBadMethod _ emptyStore rfl⟩

/-- C6 counterexample: an unauthenticated mutating request whose body is
present but not valid JSON crashes before the authorization check, so no
unauthorized-failure envelope is returned. -/
theorem c6_counterexample :
    evUploadNoAuthMalformed.claims = none ∧
    MusicHandler.handle emptyStore "id1" "t1" evUploadNoAuthMalformed = none :=
  ⟨rfl, rfl⟩

/-- C6 amended: every request without identity claims whose body is absent
or well-formed JSON and whose (path, method) names a mutating or
personalized operation — upload music, delete music, update settings, get
or update the profile image — receives the 400 failure envelope citing
unauthorized access, and the store comes back unchanged (no write to the
key-value store or object storage). -/
theorem c6_unauthenticated_rejected_no_mutation :
    (∀ st freshId now ev, ev.claims = none → ev.body ≠ RawBody.malformed →
      ev.path = some "/music" →
      (ev.httpMethod = some "POST" ∨ ev.httpMethod = some "DELETE") →
      MusicHandler.handle st freshId now ev =
        some (musicFailResponse ev "Unauthorized: No user ID found in claims",
          st)) ∧
    (∀ st ev, ev.claims = none → ev.body ≠ RawBody.malformed →
      ev.httpMethod = some "PUT" →
      UserSettingsHandler.handle st ev =
        some (settingsFailResponse ev
          "Unauthorized: No user ID found in claims", st)) ∧
    (∀ st ev, ev.claims = none → ev.body ≠ RawBody.malformed →
      (ev.httpMethod = some "GET" ∨ ev.httpMethod = some "POST") →
      UserImageHandler.handle st ev =
        some (imageFailResponse ev "Unauthorized: No user ID found in claims",
          st)) := by
  refine ⟨?_, ?_, ?_⟩
  · intro st freshId now ev hc hb hpath hm
    obtain ⟨d, hd⟩ := parseBody_of_ne_malformed ev.body hb
    rcases hm with hm | hm <;>
      simp [MusicHandler.handle, hd, hc, MusicHandler.dispatch, hpath, hm,
        MusicHandler.handle_upload_music, MusicHandler.handle_delete_music,
        MusicHandler.get_400_response, musicFailResponse]
  · intro st ev hc hb hm
    obtain ⟨d, hd⟩ := parseBody_of_ne_malformed ev.body hb
    simp [UserSettingsHandler.handle, hd, hm, resolveUserId, hc,
      UserSettingsHandler.handle_update_user_settings,
      UserSettingsHandler.get_400_response, settingsFailResponse]
  · intro st ev hc hb hm
    obtain ⟨d, hd⟩ := parseBody_of_ne_malformed ev.body hb
    rcases hm with hm | hm <;>
      simp [UserImageHandler.handle, hd, hc, hm,
        UserImageHandler.handle_get_user_image,
        UserImageHandler.handle_update_user_image,
        UserImageHandler.get_400_response, imageFailResponse]

/-- Witness for the amended C6 at a concrete unauthenticated upload. -/
theorem c6_witness :
    evUploadNoAuth.claims = none ∧
    evUploadNoAuth.body ≠ RawBody.malformed ∧
    evUploadNoAuth.path = some "/music" ∧
    (evUploadNoAuth.httpMethod = some "POST" ∨
      evUploadNoAuth.httpMethod = some "DELETE") ∧
    MusicHandler.handle emptyStore "id1" "t1" evUploadNoAuth =
      some (musicFailResponse evUploadNoAuth
        "Unauthorized: No user ID found in claims", emptyStore) :=
  ⟨rfl, by decide, rfl, Or.inl rfl,
    c6_unauthenticated_rejected_no_mutation.1 emptyStore "id1" "t1"
      evUploadNoAuth rfl (by decide) rfl (Or.inl rfl)⟩

theorem uploadedKey_ne_empty (t ext u : String) :
    (uploadedKey t ext u == "") = false := by
  rw [beq_eq_false_iff_ne]
  intro h
  have h2 := congrArg String.length h
  simp [uploadedKey, String.length_append] at h2
  exact absurd h2.1.1.1.1.1 (by decide)

/-- C8: an authenticated settings update behaves exactly as the spec-side
description `settingsUpdateSpec`: a missing required field is reported by
its name in a failure envelope with the store untouched, and with all
three fields present the update succeeds and overwrites all three fields
of the record. -/
theorem c8_update_settings_requires_all_fields
    (st : Store) (ev : Event) (c : Claims) (uid : String)
    (d : List (String × String))
    (hc : ev.claims = some c) (hsub : c.sub = some uid)
    (hd : parseBody ev.body = some d) (hm : ev.httpMethod = some "PUT") :
    UserSettingsHandler.handle st ev = some (settingsUpdateSpec st ev uid d) ∧
    (∀ f, firstMissingField d = some f → dictContains d f = false ∧
      (settingsUpdateSpec st ev uid d).2 = st) ∧
    (firstMissingField d = none →
      getItem (settingsUpdateSpec st ev uid d).2.acctUserSettingsDbTable uid =
        some { username := (dictGet d "username").getD "",
               email := (dictGet d "email").getD "",
               music_id := (dictGet d "music_id").getD "" }) := by
  have hru : resolveUserId ev.claims = some uid := by
    simp [resolveUserId, hc, hsub]
  have hmain : UserSettingsHandler.handle st ev =
      some (settingsUpdateSpec st ev uid d) := by
    by_cases h1 : dictContains d "username" = false
    · simp [UserSettingsHandler.handle, hd, hm, hru,
        UserSettingsHandler.handle_update_user_settings,
        UserSettingsHandler.update_user_settings, h1, settingsUpdateSpec,
        firstMissingField, UserSettingsHandler.get_400_response]
    · by_cases h2 : dictContains d "email" = false
      · simp [UserSettingsHandler.handle, hd, hm, hru,
          UserSettingsHandler.handle_update_user_settings,
          UserSettingsHandler.update_user_settings, h1, h2, settingsUpdateSpec,
          firstMissingField, UserSettingsHandler.get_400_response]
      · by_cases h3 : dictContains d "music_id" = false
        · simp [UserSettingsHandler.handle, hd, hm, hru,
            UserSettingsHandler.handle_update_user_settings,
            UserSettingsHandler.update_user_settings, h1, h2, h3,
            settingsUpdateSpec, firstMissingField,
            UserSettingsHandler.get_400_response]
        · simp [UserSettingsHandler.handle, hd, hm, hru,
            UserSettingsHandler.handle_update_user_settings,
            UserSettingsHandler.update_user_settings, h1, h2, h3,
            settingsUpdateSpec, firstMissingField,
            UserSettingsHandler.get_200_response]
  have hmiss : ∀ f, firstMissingField d = some f →
      dictContains d f = false ∧ (settingsUpdateSpec st ev uid d).2 = st := by
    intro f hf
    by_cases h1 : dictContains d "username" = false
    · simp only [firstMissingField, h1, if_pos, Option.some.injEq] at hf
      subst hf
      exact ⟨h1, by simp [settingsUpdateSpec, firstMissingField, h1]⟩
    · by_cases h2 : dictContains d "email" = false
      · simp [firstMissingField, h1, h2] at hf
        subst hf
        exact ⟨h2, by simp [settingsUpdateSpec, firstMissingField, h1, h2]⟩
      · by_cases h3 : dictContains d "music_id" = false
        · simp [firstMissingField, h1, h2, h3] at hf
          subst hf
          exact ⟨h3,
            by simp [settingsUpdateSpec, firstMissingField, h1, h2, h3]⟩
        · simp [firstMissingField, h1, h2, h3] at hf
  have hall : firstMissingField d = none →
      getItem (settingsUpdateSpec st ev uid d).2.acctUserSettingsDbTable uid =
        some { username := (dictGet d "username").getD "",
               email := (dictGet d "email").getD "",
               music_id := (dictGet d "music_id").getD "" } := by
    intro hnone
    by_cases h1 : dictContains d "username" = false
    · simp [firstMissingField, h1] at hnone
    · by_cases h2 : dictContains d "email" = false
      · simp [firstMissingField, h1, h2] at hnone
      · by_cases h3 : dictContains d "music_id" = false
        · simp [firstMissingField, h1, h2, h3] at hnone
        · simp [settingsUpdateSpec, firstMissingField, h1, h2, h3,
            getItem_putItem_self]
  exact ⟨hmain, hmiss, hall⟩

/-- Witness for C8 at a concrete request whose body lacks the email
field. -/
theorem c8_witness :
    evPutMissingEmail.claims = some claimsU1 ∧
    claimsU1.sub = some "u1" ∧
    parseBody evPutMissingEmail.body = some dPutMissingEmail ∧
    evPutMissingEmail.httpMethod = some "PUT" ∧
    (UserSettingsHandler.handle storeWithU1 evPutMissingEmail =
        some (settingsUpdateSpec storeWithU1 evPutMissingEmail "u1"
          dPutMissingEmail) ∧
      (∀ f, firstMissingField dPutMissingEmail = some f →
        dictContains dPutMissingEmail f = false ∧
        (settingsUpdateSpec storeWithU1 evPutMissingEmail "u1"
          dPutMissingEmail).2 = storeWithU1) ∧
      (firstMissingField dPutMissingEmail = none →
        getItem (settingsUpdateSpec storeWithU1 evPutMissingEmail "u1"
            dPutMissingEmail).2.acctUserSettingsDbTable "u1" =
          some { username := (dictGet dPutMissingEmail "username").getD "",
                 email := (dictGet dPutMissingEmail "email").getD "",
                 music_id := (dictGet dPutMissingEmail "music_id").getD "" })) :=
  ⟨rfl, rfl, rfl, rfl,
    c8_update_settings_requires_all_fields storeWithU1 evPutMissingEmail
      claimsU1 "u1" dPutMissingEmail rfl rfl rfl rfl⟩

/-- C7: for every object listing returned by the storage collaborator, the
history list in the GET /history/list response contains only
non-directory keys, is sorted by storage key in descending order, has at
most 40 entries, and every entry with a non-empty storage key carries a
non-null signed URL. -/
theorem c7_history_list_properties
    (contents : List S3Object) (objects : List (String × Json)) (ev : Event)
    (hp : ev.path = some "/history/list") (hm : ev.httpMethod = some "GET")
    (hb : ev.body ≠ RawBody.malformed) :
    ∃ hl : List HistoryEntry,
      HistoryHandler.handle contents objects ev =
        some (historyOkResponse ev "History list retrieved successfully"
          (Data.historyListObj hl)) ∧
      (∀ e ∈ hl, e.decoded.s3_key.endsWith "/" = false) ∧
      List.Pairwise (fun a b => b.decoded.s3_key ≤ a.decoded.s3_key) hl ∧
      hl.length ≤ 40 ∧
      (∀ e ∈ hl, e.decoded.s3_key ≠ "" →
        (e.decoded.presigned_url).isSome = true) := by
  obtain ⟨d, hd⟩ := parseBody_of_ne_malformed ev.body hb
  have hmem : ∀ item ∈ HistoryHandler.get_decoded_list contents 40,
      item.s3_key.endsWith "/" = false ∧
      (item.s3_key ≠ "" → item.presigned_url.isSome = true) := by
    intro item hitem
    unfold HistoryHandler.get_decoded_list at hitem
    dsimp only at hitem
    obtain ⟨stub, hstub, rfl⟩ := List.mem_map.mp hitem
    have hsor := List.take_subset _ _ hstub
    rw [List.mem_mergeSort] at hsor
    obtain ⟨src, hsrc, hif⟩ := List.mem_filterMap.mp hsor
    by_cases hek : src.key.endsWith "/" = true
    · rw [if_pos hek] at hif
      simp at hif
    · rw [if_neg hek] at hif
      have hse := Option.some.inj hif
      subst hse
      simp only [Bool.not_eq_true] at hek
      constructor
      · exact hek
      · intro hne
        have hne2 : src.key ≠ "" := hne
        simp [HistoryHandler.generate_presigned_url, hne2]
  have hpair : List.Pairwise (fun a b : DecodedEntry => b.s3_key ≤ a.s3_key)
      (HistoryHandler.get_decoded_list contents 40) := by
    unfold HistoryHandler.get_decoded_list
    dsimp only
    rw [List.pairwise_map]
    have hsorted := @List.sorted_mergeSort DecodedStub
      (fun a b => decide (b.s3_key ≤ a.s3_key))
      (fun a b c h1 h2 => decide_eq_true
        (le_trans (of_decide_eq_true h2) (of_decide_eq_true h1)))
      (fun a b => by rcases le_total b.s3_key a.s3_key with h | h <;> simp [h])
      (contents.filterMap (fun item =>
        if item.key.endsWith "/" then none
        else some { s3_key := item.key, last_modified := item.lastModified }))
    exact (hsorted.sublist (List.take_sublist _ _)).imp
      (fun h => of_decide_eq_true h)
  have hlen : (HistoryHandler.get_decoded_list contents 40).length ≤ 40 := by
    unfold HistoryHandler.get_decoded_list
    dsimp only
    rw [List.length_map, List.length_take]
    exact min_le_left _ _
  refine ⟨(HistoryHandler.get_decoded_list contents 40).map
      (fun item =>
        { decoded := item,
          results := HistoryHandler.get_results_by_decoded_key objects
            item.s3_key }), ?_, ?_, ?_, ?_, ?_⟩
  · simp [HistoryHandler.handle, hd, hp, hm,
      HistoryHandler.handle_get_history_list,
      HistoryHandler.get_200_response, historyOkResponse]
  · rw [List.forall_mem_map]
    exact fun j hj => (hmem j hj).1
  · rw [List.pairwise_map]
    exact hpair
  · rw [List.length_map]
    exact hlen
  · rw [List.forall_mem_map]
    exact fun j hj hne => (hmem j hj).2 hne

/-- Witness for C7 at a concrete listing holding one directory key and
three image keys out of order. -/
theorem c7_witness :
    evHistory.path = some "/history/list" ∧
    evHistory.httpMethod = some "GET" ∧
    evHistory.body ≠ RawBody.malformed ∧
    (∃ hl : List HistoryEntry,
      HistoryHandler.handle contentsSample [] evHistory =
        some (historyOkResponse evHistory "History list retrieved successfully"
          (Data.historyListObj hl)) ∧
      (∀ e ∈ hl, e.decoded.s3_key.endsWith "/" = false) ∧
      List.Pairwise (fun a b => b.decoded.s3_key ≤ a.decoded.s3_key) hl ∧
      hl.length ≤ 40 ∧
      (∀ e ∈ hl, e.decoded.s3_key ≠ "" →
        (e.decoded.presigned_url).isSome = true)) :=
  ⟨rfl, rfl, by decide,
    c7_history_list_properties contentsSample [] evHistory rfl rfl (by decide)⟩

/-- C9: uploading a track with a given title and decodable base64 bytes
and then getting by the id returned by the upload yields the same title
and a non-null signed URL for the configured music bucket under the key
generated at upload. -/
theorem c9_upload_get_round_trip
    (st : Store) (ev1 ev2 : Event) (c : Claims) (uid : String)
    (d q2 : List (String × String)) (mstr t ext u now : String)
    (bytes : List Nat) (fresh2 now2 : String)
    (hc : ev1.claims = some c) (hsub : c.sub = some uid)
    (hd : parseBody ev1.body = some d)
    (hp1 : ev1.path = some "/music") (hm1 : ev1.httpMethod = some "POST")
    (hmus : dictGet d "music" = some mstr)
    (hdecode : b64decode mstr = some bytes)
    (htit : dictGet d "title" = some t)
    (hext : dictGet d "extension" = some ext)
    (hu : u ≠ "")
    (hc2 : ev2.claims = none) (hb2 : ev2.body ≠ RawBody.malformed)
    (hp2 : ev2.path = some "/music") (hm2 : ev2.httpMethod = some "GET")
    (hq2 : ev2.queryStringParameters = QueryParams.dict q2)
    (hmid2 : dictGet q2 "music_id" = some u) :
    ∃ st1,
      MusicHandler.handle st u now ev1 =
        some (musicOkResponse ev1 "Music uploaded successfully"
          (Data.musicItem (uploadedRecord uid t ext u now)), st1) ∧
      MusicHandler.handle st1 fresh2 now2 ev2 =
        some (musicOkResponse ev2 "Music retrieved successfully"
          (Data.musicView (uploadedView uid t ext u)), st1) ∧
      (uploadedRecord uid t ext u now).music_id = u ∧
      (uploadedView uid t ext u).title = t ∧
      (uploadedView uid t ext u).presigned_url =
        some { bucket := MusicHandler.musics_storage_bucket_name,
               key := (uploadedRecord uid t ext u now).s3_key } := by
  obtain ⟨d2, hd2⟩ := parseBody_of_ne_malformed ev2.body hb2
  have hcm := dictContains_of_get d "music" mstr hmus
  have hct := dictContains_of_get d "title" t htit
  have hce := dictContains_of_get d "extension" ext hext
  refine ⟨{ st with
      musicsBucket := putItem st.musicsBucket (uploadedKey t ext u) bytes,
      musicsDbTable :=
        putItem st.musicsDbTable u (uploadedRecord uid t ext u now) },
    ?_, ?_, rfl, rfl, rfl⟩
  · simp [MusicHandler.handle, hd, hc, hsub, MusicHandler.dispatch, hp1, hm1,
      MusicHandler.handle_upload_music, hcm, hct, hce, hmus, htit, hext,
      hdecode, MusicHandler.upload_music, MusicHandler.get_200_response,
      musicOkResponse, uploadedRecord, uploadedKey]
  · simp [MusicHandler.handle, hd2, hc2, MusicHandler.dispatch, hp2, hm2,
      MusicHandler.handle_get_music_by_id, MusicHandler.getQueryParams, hq2,
      hmid2, pyTruthy, hu, MusicHandler.get_music_by_id, getItem_putItem_self,
      MusicHandler.generate_presigned_url, uploadedKey_ne_empty, uploadedView,
      uploadedRecord, MusicHandler.get_200_response, musicOkResponse]

/-- Witness for C9 at a concrete upload of "Song A" followed by a get of
the generated id. -/
theorem c9_witness :
    evUpload.claims = some claimsU1 ∧
    claimsU1.sub = some "u1" ∧
    parseBody evUpload.body = some dUpload ∧
    evUpload.path = some "/music" ∧
    evUpload.httpMethod = some "POST" ∧
    dictGet dUpload "music" = some "AAAA" ∧
    b64decode "AAAA" = some [0, 0, 0] ∧
    dictGet dUpload "title" = some "Song A" ∧
    dictGet dUpload "extension" = some "mp3" ∧
    "id1" ≠ "" ∧
    evGetUploaded.claims = none ∧
    evGetUploaded.body ≠ RawBody.malformed ∧
    evGetUploaded.path = some "/music" ∧
    evGetUploaded.httpMethod = some "GET" ∧
    evGetUploaded.queryStringParameters =
      QueryParams.dict [("music_id", "id1")] ∧
    dictGet [("music_id", "id1")] "music_id" = some "id1" ∧
    (∃ st1,
      MusicHandler.handle emptyStore "id1" "t1" evUpload =
        some (musicOkResponse evUpload "Music uploaded successfully"
          (Data.musicItem (uploadedRecord "u1" "Song A" "mp3" "id1" "t1")),
          st1) ∧
      MusicHandler.handle st1 "id2" "t2" evGetUploaded =
        some (musicOkResponse evGetUploaded "Music retrieved successfully"
          (Data.musicView (uploadedView "u1" "Song A" "mp3" "id1")), st1) ∧
      (uploadedRecord "u1" "Song A" "mp3" "id1" "t1").music_id = "id1" ∧
      (uploadedView "u1" "Song A" "mp3" "id1").title = "Song A" ∧
      (uploadedView "u1" "Song A" "mp3" "id1").presigned_url =
        some { bucket := MusicHandler.musics_storage_bucket_name,
               key := (uploadedRecord "u1" "Song A" "mp3" "id1" "t1").s3_key }) :=
  ⟨rfl, rfl, rfl, rfl, rfl, rfl, by decide, rfl, rfl, by decide, rfl,
    by decide, rfl, rfl, rfl, rfl,
    c9_upload_get_round_trip emptyStore evUpload evGetUploaded claimsU1 "u1"
      dUpload [("music_id", "id1")] "AAAA" "Song A" "mp3" "id1" "t1"
      [0, 0, 0] "id2" "t2" rfl rfl rfl rfl rfl rfl (by decide) rfl rfl
      (by decide) rfl (by decide) rfl rfl rfl rfl⟩
